import Mathlib

/-!
Verification development for the rotating-cube demo repository
(gl2_cube.cpp plus the two offscreen-compositing variants and Cube.h).

The effectful GL/EGL code is shallowly embedded as traces of calls
(lists of a Call datatype) produced by pure Lean functions that mirror
the control flow of the C sources; machine integers become Nat/Int,
C floats become exact rationals, and the 4x4 matrix helper (whose
source, Matrix.h/Matrix.cpp, is not part of the provided sources) is
modelled from the spec as a textbook matrix utility over an abstract
trigonometry interface.
-/

namespace GlCube

/-- One observable GL/EGL/system call issued by the program.  Attribute and
uniform locations are carried as integers because the sources store them in
GLint variables where -1 is the not-found sentinel.  bindFramebufferTarget
stands for binding the application FBO (the nonzero generated id) and
bindFramebufferDefault for binding framebuffer 0.  bindTextureOes stands for
binding the externally imported (OES) texture target, bindTexture2D for the
ordinary 2D texture target. -/
inductive Call where
  | useProgram
  | enableVertexAttribArray (loc : ℤ)
  | vertexAttribPointer (loc : ℤ) (size : ℕ)
  | bindFramebufferTarget
  | bindFramebufferDefault
  | viewport (w h : ℤ)
  | clearColor (r g b a : ℚ)
  | clear
  | uniform1f (loc : ℤ) (value : ℚ)
  | uniform1i (loc : ℤ) (value : ℤ)
  | uniformMatrix4fv (loc : ℤ)
  | drawElements (count : ℕ)
  | activeTextureZero
  | bindTexture2D
  | advanceAngles
  | swapBuffers
  | logError
  | lockBuffer
  | unlockBuffer
  | fillPattern
  | ioctlCall
  | memcpyCopy (bytes : ℕ)
  | createImage
  | destroyImage
  | genTextures
  | bindTextureOes
  | eglImageTarget
  | openDevice
deriving DecidableEq

/-- Predicate picking out draw calls in a trace. -/
def isDraw : Call → Bool
  | .drawElements _ => true
  | _ => false

/-- Predicate picking out the per-frame angle update in a trace. -/
def isAdvance : Call → Bool
  | .advanceAngles => true
  | _ => false

/-- Predicate picking out buffer lock calls in a trace. -/
def isLock : Call → Bool
  | .lockBuffer => true
  | _ => false

/-- The resolved shader handles of the offscreen-compositing variants
(global GLint variables of the sources; -1 means not found). -/
structure ShaderLocs where
  iLocPosition : ℤ
  iLocTextureMix : ℤ
  iLocTexture : ℤ
  iLocFillColor : ℤ
  iLocTexCoord : ℤ
  iLocProjection : ℤ
  iLocModelview : ℤ
deriving DecidableEq

/-- Trace of the renderFrame function shared (up to the per-frame increment
magnitudes and which texture object is bound, both abstracted here) by the
two offscreen-compositing variants.  It mirrors the source line by line:
unconditional attribute enables and pointers for position, fill color and
texture coordinates, the FBO pass (bind, 256x256 viewport, gray clear,
matrices, texture-mix 0 when the uniform was found, draw), the unbind and
window-viewport restore, the onscreen pass (blue clear, matrices,
texture-mix 1 when found, texture bind, draw) and finally the angle
update. -/
def renderFrameCalls (L : ShaderLocs) (w h : ℤ) : List Call :=
  [Call.useProgram,
   Call.enableVertexAttribArray L.iLocPosition, Call.vertexAttribPointer L.iLocPosition 3,
   Call.enableVertexAttribArray L.iLocFillColor, Call.vertexAttribPointer L.iLocFillColor 4,
   Call.enableVertexAttribArray L.iLocTexCoord, Call.vertexAttribPointer L.iLocTexCoord 2,
   Call.bindFramebufferTarget, Call.viewport 256 256,
   Call.clearColor (1/2) (1/2) (1/2) 1, Call.clear,
   Call.uniformMatrix4fv L.iLocModelview, Call.uniformMatrix4fv L.iLocProjection]
  ++ (if L.iLocTextureMix ≠ -1 then [Call.uniform1f L.iLocTextureMix 0] else [])
  ++ [Call.drawElements 34,
      Call.bindFramebufferDefault, Call.viewport w h,
      Call.clearColor 0 0 1 1, Call.clear,
      Call.uniformMatrix4fv L.iLocModelview, Call.uniformMatrix4fv L.iLocProjection]
  ++ (if L.iLocTextureMix ≠ -1 then [Call.uniform1f L.iLocTextureMix 1] else [])
  ++ [Call.activeTextureZero, Call.bindTexture2D, Call.drawElements 34, Call.advanceAngles]

/-- One iteration of the frame loop of the synthetic (YV12) variant:
renderFrame followed by eglSwapBuffers. -/
def loopIterationYuv (L : ShaderLocs) (w h : ℤ) : List Call :=
  renderFrameCalls L w h ++ [Call.swapBuffers]

/-- The attribute/uniform resolution tail of setupGraphics of the
offscreen-compositing variants, given the resolved locations: a missing
position attribute is fatal (Bool result false); each optional handle is
either used (enable / initial uniform store) when found or only produces a
warning log when resolved to -1; the modelview location is only logged,
with no guard at all. -/
def setupGraphicsResolveCalls (L : ShaderLocs) : Bool × List Call :=
  if L.iLocPosition = -1 then (false, [Call.logError])
  else (true,
    [Call.enableVertexAttribArray L.iLocPosition]
    ++ (if L.iLocTextureMix = -1 then [Call.logError] else [Call.uniform1f L.iLocTextureMix 0])
    ++ (if L.iLocTexture = -1 then [Call.logError] else [Call.uniform1i L.iLocTexture 0])
    ++ (if L.iLocFillColor = -1 then [Call.logError]
        else [Call.enableVertexAttribArray L.iLocFillColor])
    ++ (if L.iLocTexCoord = -1 then [Call.logError]
        else [Call.enableVertexAttribArray L.iLocTexCoord])
    ++ (if L.iLocProjection = -1 then [Call.logError]
        else [Call.uniformMatrix4fv L.iLocProjection]))

/-- A location assignment where every handle was found. -/
def locsFound : ShaderLocs := ⟨0, 1, 2, 3, 4, 5, 6⟩

/-- A location assignment where only the optional fill-color attribute
resolved to the -1 sentinel. -/
def locsNoFill : ShaderLocs := ⟨0, 1, 2, -1, 4, 5, 6⟩

/-! ## Cube geometry (Cube.h) -/

/-- The triangle-strip index list of Cube.h. -/
def cubeIndices : List ℕ :=
  [0, 1, 2, 3,   3, 4,   4, 5, 6, 7,   7, 8,   8, 9, 10, 11,   11, 12,
   12, 13, 14, 15,   15, 16,   16, 17, 18, 19,   19, 20,   20, 21, 22, 23]

/-- The 24 cube vertex positions of Cube.h (four per face, front, right,
back, left, top, bottom). -/
def cubeVertices : List (ℚ × ℚ × ℚ) :=
  [(-1/2, -1/2,  1/2), ( 1/2, -1/2,  1/2), (-1/2,  1/2,  1/2), ( 1/2,  1/2,  1/2),
   ( 1/2, -1/2,  1/2), ( 1/2, -1/2, -1/2), ( 1/2,  1/2,  1/2), ( 1/2,  1/2, -1/2),
   ( 1/2, -1/2, -1/2), (-1/2, -1/2, -1/2), ( 1/2,  1/2, -1/2), (-1/2,  1/2, -1/2),
   (-1/2, -1/2, -1/2), (-1/2, -1/2,  1/2), (-1/2,  1/2, -1/2), (-1/2,  1/2,  1/2),
   (-1/2,  1/2,  1/2), ( 1/2,  1/2,  1/2), (-1/2,  1/2, -1/2), ( 1/2,  1/2, -1/2),
   (-1/2, -1/2, -1/2), ( 1/2, -1/2, -1/2), (-1/2, -1/2,  1/2), ( 1/2, -1/2,  1/2)]

/-- The triangles produced by decoding an index list with triangle-strip
semantics: every window of three consecutive indices. -/
def stripTriangles (l : List ℕ) : List (ℕ × ℕ × ℕ) :=
  l.zip ((l.drop 1).zip (l.drop 2))

/-- A decoded triangle is degenerate when two of its three indices
coincide (zero area, not rendered). -/
def isDegenerate (t : ℕ × ℕ × ℕ) : Bool :=
  t.1 == t.2.1 || t.2.1 == t.2.2 || t.1 == t.2.2

/-! ## Animation angle stepping -/

/-- One per-frame update of a rotation angle in the offscreen-compositing
variants: add the fixed increment, then subtract 360 if the result reached
360 (renderFrame, angle update at the end of the frame).  The C float
arithmetic is modelled with exact rationals. -/
def stepAngle (inc a : ℚ) : ℚ :=
  if a + inc ≥ 360 then a + inc - 360 else a + inc

/-- One per-frame update of a rotation angle in gl2_cube.cpp, which also
guards against negative values (angle += inc; wrap at 360; wrap at 0). -/
def stepAngleSigned (inc a : ℚ) : ℚ :=
  let b := a + inc
  let c := if b ≥ 360 then b - 360 else b
  if c < 0 then c + 360 else c

theorem stepAngle_bounds (inc a : ℚ) (h0 : 0 ≤ inc) (h1 : inc ≤ 360)
    (ha : 0 ≤ a) (hb : a < 360) :
    0 ≤ stepAngle inc a ∧ stepAngle inc a < 360 := by
  unfold stepAngle
  split <;> constructor <;> linarith

theorem stepAngle_iterate_bounds (inc : ℚ) (h0 : 0 ≤ inc) (h1 : inc ≤ 360) :
    ∀ n : ℕ, 0 ≤ (stepAngle inc)^[n] 0 ∧ (stepAngle inc)^[n] 0 < 360 := by
  intro n
  induction n with
  | zero => exact ⟨le_refl 0, by norm_num⟩
  | succ k ih =>
      rw [Function.iterate_succ_apply']
      exact stepAngle_bounds inc _ h0 h1 ih.1 ih.2

theorem stepAngleSigned_bounds (inc a : ℚ) (h0 : 0 ≤ inc) (h1 : inc ≤ 360)
    (ha : 0 ≤ a) (hb : a < 360) :
    0 ≤ stepAngleSigned inc a ∧ stepAngleSigned inc a < 360 := by
  unfold stepAngleSigned
  simp only []
  split <;> split <;> constructor <;> linarith

theorem stepAngleSigned_iterate_bounds (inc : ℚ) (h0 : 0 ≤ inc) (h1 : inc ≤ 360) :
    ∀ n : ℕ, 0 ≤ (stepAngleSigned inc)^[n] 0 ∧ (stepAngleSigned inc)^[n] 0 < 360 := by
  intro n
  induction n with
  | zero => exact ⟨le_refl 0, by norm_num⟩
  | succ k ih =>
      rw [Function.iterate_succ_apply']
      exact stepAngleSigned_bounds inc _ h0 h1 ih.1 ih.2

/-! ## Per-frame framebuffer copy size (fillFbTexture, live-capture variant) -/

/-- The reported geometry of the system framebuffer device
(fb_var_screeninfo fields used by fillFbTexture). -/
structure FbGeom where
  xres : ℕ
  yres : ℕ
  bpp : ℕ
deriving DecidableEq

/-- Number of bytes memcpy-ed on every frame by fillFbTexture:
vInfo.xres * vInfo.yres * vInfo.bits_per_pixel / 8. -/
def copyByteCount (g : FbGeom) : ℕ := g.xres * g.yres * g.bpp / 8

/-- Capacity in bytes of the destination GraphicBuffer of the live-capture
variant: 640 x 240 pixels of RGB565 (2 bytes per pixel). -/
def fbTexCapacity : ℕ := 640 * 240 * 2

/-! ## Environments for the fallible platform calls -/

/-- Results of the fallible platform calls around one GraphicBuffer:
lock and unlock status codes (0 is success) and whether
eglCreateImageKHR produced an image. -/
structure BufEnv where
  lockErr : ℤ
  unlockErr : ℤ
  imageOk : Bool
deriving DecidableEq

/-- Trace and Bool result of setupYuvTexSurface (synthetic YV12 variant):
lock, pattern fill, unlock, image creation, texture import; every failure
is logged and makes the function return false immediately, leaving any
pre-existing texture state untouched. -/
def setupYuvTexSurfaceRun (e : BufEnv) : List Call × Bool :=
  if e.lockErr ≠ 0 then ([Call.lockBuffer, Call.logError], false)
  else if e.unlockErr ≠ 0 then
    ([Call.lockBuffer, Call.fillPattern, Call.unlockBuffer, Call.logError], false)
  else if e.imageOk = false then
    ([Call.lockBuffer, Call.fillPattern, Call.unlockBuffer, Call.createImage, Call.logError],
     false)
  else
    ([Call.lockBuffer, Call.fillPattern, Call.unlockBuffer, Call.createImage,
      Call.genTextures, Call.bindTextureOes, Call.eglImageTarget], true)

/-- Trace of fillFbTexture (live-capture variant).  A lock failure is
logged and aborts the refresh; an ioctl failure is only logged and the
copy proceeds with the stale geometry; an unlock failure is logged and
aborts before the one-time import; when flag is set (first call only) the
buffer is imported as an image and bound to the OES texture target, and a
creation failure aborts after logging. -/
def fillFbTextureRun (e : BufEnv) (g : FbGeom) (ioctlOk flag : Bool) : List Call :=
  if e.lockErr ≠ 0 then [Call.lockBuffer, Call.logError]
  else
    [Call.lockBuffer, Call.ioctlCall]
    ++ (if ioctlOk then [] else [Call.logError])
    ++ [Call.memcpyCopy (copyByteCount g), Call.unlockBuffer]
    ++ (if e.unlockErr ≠ 0 then [Call.logError]
        else if flag then
          (if e.imageOk then
            [Call.createImage, Call.genTextures, Call.bindTextureOes,
             Call.eglImageTarget, Call.destroyImage]
           else [Call.createImage, Call.logError])
        else [])

/-- Trace and Bool result of setupFbTexSurface (live-capture variant):
allocate the buffer, open the framebuffer device, run the first
fillFbTexture with the import flag set, and return true unconditionally —
the source never propagates a fillFbTexture failure. -/
def setupFbTexSurfaceRun (e : BufEnv) (g : FbGeom) (ioctlOk : Bool) : List Call × Bool :=
  ([Call.openDevice] ++ fillFbTextureRun e g ioctlOk true, true)

/-! ## setupGraphics success and the exit-code structure of main -/

/-- Results of the fallible GL calls inside setupGraphics. -/
structure GfxEnv where
  fboComplete : Bool
  createProgramOk : Bool
  vertexShaderOk : Bool
  fragmentShaderOk : Bool
  linkOk : Bool
  positionFound : Bool
deriving DecidableEq

/-- Whether setupGraphics of the two offscreen-compositing variants
returns true: the FBO completeness check, program creation and the two
shader compiles are checked directly; a link failure is caught only
indirectly, because a location query on an unlinked program yields -1 and
the required position attribute is then reported missing. -/
def setupGraphicsFboOk (g : GfxEnv) : Bool :=
  g.fboComplete && g.createProgramOk && g.vertexShaderOk && g.fragmentShaderOk
    && (g.linkOk && g.positionFound)

/-- Whether setupGraphics of gl2_cube.cpp returns true: only program
creation and the two shader compiles are checked; the link result and the
attribute/uniform locations are logged but never tested. -/
def setupGraphicsCubeOk (g : GfxEnv) : Bool :=
  g.createProgramOk && g.vertexShaderOk && g.fragmentShaderOk

/-- Results of the fallible display and context setup calls of main,
together with the environments consumed by the later setup stages. -/
structure MainEnv where
  displayOk : Bool
  initOk : Bool
  configOk : Bool
  surfaceOk : Bool
  contextOk : Bool
  makeCurrentOk : Bool
  buf : BufEnv
  geom : FbGeom
  ioctlOk : Bool
  gfx : GfxEnv
deriving DecidableEq

/-- The chain of early returns of main for the two variants that run a
texture-surface setup step: display acquisition failures exit with 0,
every later setup failure with 1, and full success falls through to the
infinite frame loop (modelled as none). -/
def exitChainTex (d i c s k m t g : Bool) : Option ℕ :=
  if d = false then some 0
  else if i = false then some 0
  else if c = false then some 1
  else if s = false then some 1
  else if k = false then some 1
  else if m = false then some 1
  else if t = false then some 1
  else if g = false then some 1
  else none

/-- The chain of early returns of gl2_cube.cpp's main, which has no
texture-surface setup step. -/
def exitChainNoTex (d i c s k m g : Bool) : Option ℕ :=
  if d = false then some 0
  else if i = false then some 0
  else if c = false then some 1
  else if s = false then some 1
  else if k = false then some 1
  else if m = false then some 1
  else if g = false then some 1
  else none

/-- Exit behavior of main of the synthetic YV12 variant. -/
def mainYuvExit (env : MainEnv) : Option ℕ :=
  exitChainTex env.displayOk env.initOk env.configOk env.surfaceOk env.contextOk
    env.makeCurrentOk (setupYuvTexSurfaceRun env.buf).2 (setupGraphicsFboOk env.gfx)

/-- Exit behavior of main of the live-capture variant. -/
def mainFbExit (env : MainEnv) : Option ℕ :=
  exitChainTex env.displayOk env.initOk env.configOk env.surfaceOk env.contextOk
    env.makeCurrentOk (setupFbTexSurfaceRun env.buf env.geom env.ioctlOk).2
    (setupGraphicsFboOk env.gfx)

/-- Exit behavior of main of gl2_cube.cpp. -/
def mainCubeExit (env : MainEnv) : Option ℕ :=
  exitChainNoTex env.displayOk env.initOk env.configOk env.surfaceOk env.contextOk
    env.makeCurrentOk (setupGraphicsCubeOk env.gfx)

theorem exitChainTex_spec (d i c s k m t g : Bool) :
    (exitChainTex d i c s k m t g = some 0 ↔ (d && i) = false) ∧
    (exitChainTex d i c s k m t g = some 1 ↔
      (d && i) = true ∧ (c && s && k && m && t && g) = false) ∧
    (exitChainTex d i c s k m t g = none ↔
      (d && i && c && s && k && m && t && g) = true) := by
  revert d i c s k m t g
  decide

theorem exitChainNoTex_spec (d i c s k m g : Bool) :
    (exitChainNoTex d i c s k m g = some 0 ↔ (d && i) = false) ∧
    (exitChainNoTex d i c s k m g = some 1 ↔
      (d && i) = true ∧ (c && s && k && m && g) = false) ∧
    (exitChainNoTex d i c s k m g = none ↔
      (d && i && c && s && k && m && g) = true) := by
  revert d i c s k m g
  decide

/-- An environment in which every fallible call succeeds. -/
def envAllOk : MainEnv :=
  ⟨true, true, true, true, true, true, ⟨0, 0, true⟩, ⟨640, 240, 16⟩, true,
   ⟨true, true, true, true, true, true⟩⟩

/-- Like envAllOk, except that linking the shader program fails while both
shaders compiled (a_v4Position then still resolves in gl2_cube.cpp's model
only as a logged value, never checked). -/
def envLinkFail : MainEnv :=
  ⟨true, true, true, true, true, true, ⟨0, 0, true⟩, ⟨640, 240, 16⟩, true,
   ⟨true, true, true, true, false, true⟩⟩

/-- Like envAllOk, except that locking the YV12 GraphicBuffer fails with a
nonzero status. -/
def envYuvLockFail : MainEnv :=
  ⟨true, true, true, true, true, true, ⟨-22, 0, true⟩, ⟨640, 240, 16⟩, true,
   ⟨true, true, true, true, true, true⟩⟩

/-! ## xioctl (live-capture variant) -/

/-- The errno value EINTR checked by xioctl. -/
def eintrCode : ℤ := 4

/-- Shallow embedding of xioctl: the do-while loop keeps re-invoking ioctl
while the result is -1 with errno EINTR.  The ioctl results are supplied
as the pair (return value, errno) of the first invocation plus a list of
results for any further invocations; the value returned together with the
number of invocations made is produced.  If the supplied results run out
the last one is returned (a finite environment always determines the
answer for the inputs used below). -/
def xioctlRun : ℤ × ℤ → List (ℤ × ℤ) → ℤ × ℕ
  | (r, e), rest =>
    if r = -1 ∧ e = eintrCode then
      match rest with
      | [] => (r, 1)
      | p :: t =>
          let q := xioctlRun p t
          (q.1, q.2 + 1)
    else (r, 1)

/-! ## Checkerboard fill of the YV12 buffer (setupYuvTexSurface)

The source fixes yuvTexWidth = 608, yuvTexHeight = 480 and obtains the
luma stride from the allocated GraphicBuffer; the model is parametric in
the width w, height h and luma stride sY (the platform guarantees
w ≤ sY).  The int arithmetic of the source is nonnegative throughout and
is modelled with Nat. -/

/-- Offset of the luma plane (yuvTexOffsetY in the source). -/
def yuvTexOffsetY : ℕ := 0

/-- Block width of the checkerboard: yuvTexWidth > 16 ? yuvTexWidth / 16 : 1. -/
def blockWidth (w : ℕ) : ℕ := if 16 < w then w / 16 else 1

/-- Block height of the checkerboard: yuvTexHeight > 16 ? yuvTexHeight / 16 : 1. -/
def blockHeight (h : ℕ) : ℕ := if 16 < h then h / 16 else 1

/-- The intensity written at pixel (x, y): 191 when the block parities of
x and y agree ((parityX ^ parityY) ? 63 : 191 in the source). -/
def checkerIntensity (w h x y : ℕ) : ℕ :=
  if ((x / blockWidth w) &&& 1) ^^^ ((y / blockHeight h) &&& 1) = 0 then 191 else 63

/-- Offset of the V plane: yuvTexStrideY * yuvTexHeight. -/
def yuvTexOffsetV (h sY : ℕ) : ℕ := sY * h

/-- Stride of the V (and U) plane: (yuvTexStrideY/2 + 0xf) & ~0xf, the
next multiple of 16 at or above half the luma stride. -/
def yuvTexStrideV (sY : ℕ) : ℕ := (sY / 2 + 15) / 16 * 16

/-- Offset of the U plane: yuvTexOffsetV + yuvTexStrideV * yuvTexHeight/2. -/
def yuvTexOffsetU (h sY : ℕ) : ℕ := yuvTexOffsetV h sY + yuvTexStrideV sY * h / 2

/-- The sequence of (address, value) byte stores performed by the fill
loops of setupYuvTexSurface, in program order (x outer, y inner): the luma
store for every pixel, the U store at half resolution, and the four V
stores at quarter resolution (yuvTexSameUV is false in the source). -/
def yuvFillWrites (w h sY : ℕ) : List (ℕ × ℕ) :=
  (List.range w).flatMap fun x =>
    (List.range h).flatMap fun y =>
      (yuvTexOffsetY + y * sY + x, checkerIntensity w h x y) ::
        (if x < w / 2 ∧ y < h / 2 then
          (yuvTexOffsetU h sY + y * yuvTexStrideV sY + x, checkerIntensity w h x y) ::
            (if x < w / 4 ∧ y < h / 4 then
              [(yuvTexOffsetV h sY + y * 2 * yuvTexStrideV sY + x * 2,
                checkerIntensity w h x y),
               (yuvTexOffsetV h sY + y * 2 * yuvTexStrideV sY + (x * 2 + 1),
                checkerIntensity w h x y),
               (yuvTexOffsetV h sY + (y * 2 + 1) * yuvTexStrideV sY + x * 2,
                checkerIntensity w h x y),
               (yuvTexOffsetV h sY + (y * 2 + 1) * yuvTexStrideV sY + (x * 2 + 1),
                checkerIntensity w h x y)]
            else [])
        else [])

/-- The final content of a byte of the buffer after a sequence of stores:
the value of the last store to that address, if any. -/
def lastWrite (ws : List (ℕ × ℕ)) (a : ℕ) : Option ℕ :=
  (ws.reverse.find? (fun p => p.1 == a)).map Prod.snd

/-- The luma sample of the filled buffer at pixel (x, y). -/
def lumaSample (w h sY x y : ℕ) : Option ℕ :=
  lastWrite (yuvFillWrites w h sY) (yuvTexOffsetY + y * sY + x)

theorem lastWrite_eq (ws : List (ℕ × ℕ)) (a v : ℕ)
    (hex : ∃ p ∈ ws, p.1 = a) (hall : ∀ p ∈ ws, p.1 = a → p.2 = v) :
    lastWrite ws a = some v := by
  obtain ⟨p, hp, hpa⟩ := hex
  have hsome : (ws.reverse.find? (fun q => q.1 == a)).isSome := by
    rw [List.find?_isSome]
    exact ⟨p, List.mem_reverse.mpr hp, by simp [hpa]⟩
  obtain ⟨q, hq⟩ := Option.isSome_iff_exists.mp hsome
  have hqa : q.1 = a := by
    have := List.find?_some hq
    simpa using this
  have hqmem : q ∈ ws := List.mem_reverse.mp (List.mem_of_find?_eq_some hq)
  have hqv : q.2 = v := hall q hqmem hqa
  unfold lastWrite
  rw [hq]
  simp [hqv]

theorem yuvFillWrites_mem (w h sY x y : ℕ) (hx : x < w) (hy : y < h) :
    (yuvTexOffsetY + y * sY + x, checkerIntensity w h x y) ∈ yuvFillWrites w h sY := by
  unfold yuvFillWrites
  rw [List.mem_flatMap]
  refine ⟨x, List.mem_range.mpr hx, ?_⟩
  rw [List.mem_flatMap]
  exact ⟨y, List.mem_range.mpr hy, List.mem_cons_self _ _⟩

theorem yuvFillWrites_luma_value (w h sY x y : ℕ) (hws : w ≤ sY)
    (hx : x < w) (hy : y < h) :
    ∀ p ∈ yuvFillWrites w h sY,
      p.1 = yuvTexOffsetY + y * sY + x → p.2 = checkerIntensity w h x y := by
  intro p hp hpa
  have hsY : 0 < sY := lt_of_le_of_lt (Nat.zero_le x) (lt_of_lt_of_le hx hws)
  have htarget : yuvTexOffsetY + y * sY + x < sY * h := by
    have hx' : x < sY := lt_of_lt_of_le hx hws
    calc yuvTexOffsetY + y * sY + x = y * sY + x := by
          simp [yuvTexOffsetY]
      _ < y * sY + sY := Nat.add_lt_add_left hx' _
      _ = (y + 1) * sY := by ring
      _ ≤ h * sY := Nat.mul_le_mul_right sY hy
      _ = sY * h := Nat.mul_comm h sY
  unfold yuvFillWrites at hp
  rw [List.mem_flatMap] at hp
  obtain ⟨x', hx'r, hp⟩ := hp
  rw [List.mem_flatMap] at hp
  obtain ⟨y', hy'r, hp⟩ := hp
  have hx'w : x' < w := List.mem_range.mp hx'r
  have hy'h : y' < h := List.mem_range.mp hy'r
  rw [List.mem_cons] at hp
  rcases hp with hluma | hchroma
  · -- the luma store of pixel (x', y'): the address forces x' = x, y' = y
    have haddr : y' * sY + x' = y * sY + x := by
      have h0 := hpa
      rw [hluma] at h0
      simpa [yuvTexOffsetY] using h0
    have e1 : (y' * sY + x') % sY = x' := by
      rw [Nat.add_comm, Nat.add_mul_mod_self_right]
      exact Nat.mod_eq_of_lt (lt_of_lt_of_le hx'w hws)
    have e2 : (y * sY + x) % sY = x := by
      rw [Nat.add_comm, Nat.add_mul_mod_self_right]
      exact Nat.mod_eq_of_lt (lt_of_lt_of_le hx hws)
    have hxx : x' = x := by
      have hmod : (y' * sY + x') % sY = (y * sY + x) % sY := by rw [haddr]
      rwa [e1, e2] at hmod
    have hyy : y' = y := by
      rw [hxx] at haddr
      exact Nat.eq_of_mul_eq_mul_right hsY (Nat.add_right_cancel haddr)
    rw [hluma]
    simp [hxx, hyy]
  · -- every chroma store lands at or above the V-plane offset sY * h,
    -- while the luma target address lies strictly below it
    exfalso
    have hge : sY * h ≤ p.1 := by
      by_cases hc : x' < w / 2 ∧ y' < h / 2
      · rw [if_pos hc] at hchroma
        rcases List.mem_cons.mp hchroma with hU | hV
        · rw [hU]
          show sY * h ≤ sY * h + yuvTexStrideV sY * h / 2 + y' * yuvTexStrideV sY + x'
          exact le_trans (le_trans (Nat.le_add_right _ _) (Nat.le_add_right _ _))
            (Nat.le_add_right _ _)
        · by_cases hq : x' < w / 4 ∧ y' < h / 4
          · rw [if_pos hq] at hV
            simp only [List.mem_cons, List.not_mem_nil, or_false] at hV
            rcases hV with h1 | h1 | h1 | h1 <;> rw [h1] <;>
              exact le_trans (Nat.le_add_right _ _) (Nat.le_add_right _ _)
          · rw [if_neg hq] at hV
            exact absurd hV (List.not_mem_nil p)
      · rw [if_neg hc] at hchroma
        exact absurd hchroma (List.not_mem_nil p)
    have hlt : p.1 < sY * h := by rw [hpa]; exact htarget
    exact absurd hge (Nat.not_le_of_lt hlt)

/-! ## The 4x4 matrix helper and the two model-view matrices -/

/-- Modelled from the spec: the Matrix.h/Matrix.cpp helper included by all
three programs is not among the provided sources; the spec describes it as
a textbook 4x4 utility (rotation/translation/perspective construction and
multiplication, standard formulas, angles in degrees).  To keep the
development computable, the sine and cosine of an angle given in degrees
are abstracted as a pair of functions into an arbitrary commutative ring;
realTrig below instantiates them with the real functions. -/
structure Trig (R : Type) where
  sinDeg : ℚ → R
  cosDeg : ℚ → R

/-- Modelled from the spec: standard rotation about the X axis by a
degrees. -/
def createRotationX {R : Type} [CommRing R] (t : Trig R) (a : ℚ) :
    Matrix (Fin 4) (Fin 4) R :=
  !![1, 0, 0, 0;
     0, t.cosDeg a, -(t.sinDeg a), 0;
     0, t.sinDeg a, t.cosDeg a, 0;
     0, 0, 0, 1]

/-- Modelled from the spec: standard rotation about the Y axis by a
degrees. -/
def createRotationY {R : Type} [CommRing R] (t : Trig R) (a : ℚ) :
    Matrix (Fin 4) (Fin 4) R :=
  !![t.cosDeg a, 0, t.sinDeg a, 0;
     0, 1, 0, 0;
     -(t.sinDeg a), 0, t.cosDeg a, 0;
     0, 0, 0, 1]

/-- Modelled from the spec: standard rotation about the Z axis by a
degrees. -/
def createRotationZ {R : Type} [CommRing R] (t : Trig R) (a : ℚ) :
    Matrix (Fin 4) (Fin 4) R :=
  !![t.cosDeg a, -(t.sinDeg a), 0, 0;
     t.sinDeg a, t.cosDeg a, 0, 0;
     0, 0, 1, 0;
     0, 0, 0, 1]

/-- Modelled from the spec: standard translation matrix. -/
def createTranslation {R : Type} [CommRing R] (x y z : R) :
    Matrix (Fin 4) (Fin 4) R :=
  !![1, 0, 0, x;
     0, 1, 0, y;
     0, 0, 1, z;
     0, 0, 0, 1]

/-- The model-view matrix computed for the offscreen (FBO) pass of
renderFrame in both offscreen-compositing variants: rotationX is built
from -angleZ, rotationY from -angleY and rotationZ from -angleX, then
modelView = translation * rotationX * rotationY * rotationZ with a
translation of (0, 0, -2). -/
def fboModelView {R : Type} [CommRing R] (t : Trig R) (ax ay az : ℚ) :
    Matrix (Fin 4) (Fin 4) R :=
  createTranslation 0 0 (-2) * createRotationX t (-az) * createRotationY t (-ay)
    * createRotationZ t (-ax)

/-- The model-view matrix computed for the main onscreen pass of
renderFrame: each rotation built from its own positive angle, same
translation and multiplication order. -/
def mainModelView {R : Type} [CommRing R] (t : Trig R) (ax ay az : ℚ) :
    Matrix (Fin 4) (Fin 4) R :=
  createTranslation 0 0 (-2) * createRotationX t ax * createRotationY t ay
    * createRotationZ t az

/-- The offscreen model-view matrix as the spec sentence describes it:
the main-pass construction with each rotation angle negated on its own
axis. -/
def specFboModelView {R : Type} [CommRing R] (t : Trig R) (ax ay az : ℚ) :
    Matrix (Fin 4) (Fin 4) R :=
  createTranslation 0 0 (-2) * createRotationX t (-ax) * createRotationY t (-ay)
    * createRotationZ t (-az)

/-- The real sine and cosine of an angle given in degrees. -/
noncomputable def realTrig : Trig ℝ :=
  ⟨fun a => Real.sin ((a : ℝ) * Real.pi / 180),
   fun a => Real.cos ((a : ℝ) * Real.pi / 180)⟩

theorem realTrig_cosDeg_zero : realTrig.cosDeg 0 = 1 := by
  simp [realTrig]

theorem realTrig_sinDeg_zero : realTrig.sinDeg 0 = 0 := by
  simp [realTrig]

theorem realTrig_cosDeg_neg_ninety : realTrig.cosDeg (-90) = 0 := by
  have h : ((-90 : ℚ) : ℝ) * Real.pi / 180 = -(Real.pi / 2) := by
    push_cast
    ring
  simp only [realTrig, h, Real.cos_neg]
  exact Real.cos_pi_div_two

theorem realTrig_sinDeg_neg_ninety : realTrig.sinDeg (-90) = -1 := by
  have h : ((-90 : ℚ) : ℝ) * Real.pi / 180 = -(Real.pi / 2) := by
    push_cast
    ring
  simp only [realTrig, h, Real.sin_neg]
  rw [Real.sin_pi_div_two]

theorem fboModelView_entry00 : fboModelView realTrig 90 0 0 0 0 = 0 := by
  simp [fboModelView, createTranslation, createRotationX, createRotationY,
        createRotationZ, Matrix.mul_apply, Fin.sum_univ_succ,
        realTrig_cosDeg_zero, realTrig_sinDeg_zero,
        realTrig_cosDeg_neg_ninety, realTrig_sinDeg_neg_ninety]

theorem specFboModelView_entry00 : specFboModelView realTrig 90 0 0 0 0 = 1 := by
  simp [specFboModelView, createTranslation, createRotationX, createRotationY,
        createRotationZ, Matrix.mul_apply, Fin.sum_univ_succ,
        realTrig_cosDeg_zero, realTrig_sinDeg_zero,
        realTrig_cosDeg_neg_ninety, realTrig_sinDeg_neg_ninety]

/-! ## Shared helper lemmas about the traces -/

theorem renderFrameCalls_advance_count (L : ShaderLocs) (w h : ℤ) :
    (renderFrameCalls L w h).countP isAdvance = 1 := by
  unfold renderFrameCalls
  by_cases hm : L.iLocTextureMix = -1 <;>
    simp [hm, List.countP_append, List.countP_cons, isAdvance]

theorem renderFrameCalls_draw_count (L : ShaderLocs) (w h : ℤ) :
    (renderFrameCalls L w h).countP isDraw = 2 := by
  unfold renderFrameCalls
  by_cases hm : L.iLocTextureMix = -1 <;>
    simp [hm, List.countP_append, List.countP_cons, isDraw]

theorem setupResolve_no_enable_sentinel (L : ShaderLocs) :
    Call.enableVertexAttribArray (-1) ∉ (setupGraphicsResolveCalls L).2 := by
  unfold setupGraphicsResolveCalls
  by_cases hp : L.iLocPosition = -1
  · simp [hp]
  · by_cases hm : L.iLocTextureMix = -1 <;> by_cases ht : L.iLocTexture = -1 <;>
      by_cases hf : L.iLocFillColor = -1 <;> by_cases htc : L.iLocTexCoord = -1 <;>
      by_cases hpr : L.iLocProjection = -1 <;>
      simp [hp, hm, ht, hf, htc, hpr] <;> omega

theorem setupYuv_lock_count (e : BufEnv) :
    (setupYuvTexSurfaceRun e).1.countP isLock = 1 := by
  unfold setupYuvTexSurfaceRun
  split_ifs <;> rfl

theorem fillFb_lock_count (e : BufEnv) (g : FbGeom) (io fl : Bool) :
    (fillFbTextureRun e g io fl).countP isLock = 1 := by
  unfold fillFbTextureRun
  split_ifs <;> simp [List.countP_append, List.countP_cons, isLock]

/-! ## The claims -/

/-- Claim C1, counterexample: at the angle triple (90, 0, 0) the
model-view matrix actually computed for the offscreen pass (rotation
about X by -angleZ, about Y by -angleY, about Z by -angleX) differs from
the matrix the claim asserts (each rotation angle negated on its own
axis): their (0,0) entries are cos(-90 deg) = 0 and 1 respectively. -/
theorem claim1_counterexample :
    fboModelView realTrig 90 0 0 ≠ specFboModelView realTrig 90 0 0 := by
  intro hcontra
  have h00 : fboModelView realTrig 90 0 0 0 0 = specFboModelView realTrig 90 0 0 0 0 := by
    rw [hcontra]
  rw [fboModelView_entry00, specFboModelView_entry00] at h00
  exact zero_ne_one h00

/-- Claim C1, amended: for every angle triple the offscreen model-view
matrix equals the main-pass model-view matrix evaluated at the negated
angles with the X and Z angles exchanged between axes (same translation
and multiplication order); it is not the per-axis negation the claim
states. -/
theorem claim1_theorem (ax ay az : ℚ) :
    fboModelView realTrig ax ay az = mainModelView realTrig (-az) (-ay) (-ax) := rfl

/-- Claim C2, counterexample: with the fill-color attribute resolved to
the -1 sentinel (and every other handle found), the per-frame render
trace still contains both the vertex-attribute-array enable call and the
attribute-pointer call for that attribute — renderFrame issues them
unconditionally. -/
theorem claim2_counterexample :
    locsNoFill.iLocFillColor = -1 ∧
    Call.enableVertexAttribArray (-1) ∈ renderFrameCalls locsNoFill 800 480 ∧
    Call.vertexAttribPointer (-1) 4 ∈ renderFrameCalls locsNoFill 800 480 := by
  decide

/-- Claim C2, amended: when the fill-color attribute resolved to -1,
setupGraphics does skip its enable call, but renderFrame issues the
enable and pointer calls for it unconditionally every frame (the first
seven calls of the frame are the three enable/pointer groups, with -1
passed for fill color); the two draw calls are still issued. -/
theorem claim2_theorem (L : ShaderLocs) (w h : ℤ) (hf : L.iLocFillColor = -1) :
    (renderFrameCalls L w h).take 7 =
      [Call.useProgram,
       Call.enableVertexAttribArray L.iLocPosition, Call.vertexAttribPointer L.iLocPosition 3,
       Call.enableVertexAttribArray (-1), Call.vertexAttribPointer (-1) 4,
       Call.enableVertexAttribArray L.iLocTexCoord, Call.vertexAttribPointer L.iLocTexCoord 2] ∧
    Call.enableVertexAttribArray (-1) ∉ (setupGraphicsResolveCalls L).2 ∧
    (renderFrameCalls L w h).countP isDraw = 2 := by
  refine ⟨?_, setupResolve_no_enable_sentinel L, renderFrameCalls_draw_count L w h⟩
  unfold renderFrameCalls
  rw [hf]
  rfl

/-- Claim C2, witness: the amended statement evaluated at the concrete
location assignment whose fill-color handle is -1. -/
theorem claim2_witness :
    (renderFrameCalls locsNoFill 800 480).take 7 =
      [Call.useProgram,
       Call.enableVertexAttribArray locsNoFill.iLocPosition,
       Call.vertexAttribPointer locsNoFill.iLocPosition 3,
       Call.enableVertexAttribArray (-1), Call.vertexAttribPointer (-1) 4,
       Call.enableVertexAttribArray locsNoFill.iLocTexCoord,
       Call.vertexAttribPointer locsNoFill.iLocTexCoord 2] ∧
    Call.enableVertexAttribArray (-1) ∉ (setupGraphicsResolveCalls locsNoFill).2 ∧
    (renderFrameCalls locsNoFill 800 480).countP isDraw = 2 :=
  claim2_theorem locsNoFill 800 480 (by decide)

/-- Claim C3, counterexample: in one iteration of the frame loop of the
synthetic variant with every handle found, both draw calls occur before
the angle update (the prefix of the trace strictly before the single
advanceAngles already contains the two draws), so the iteration does not
first advance the angles as the claim states; swap-buffers is last. -/
theorem claim3_counterexample :
    ((loopIterationYuv locsFound 800 480).takeWhile
        (fun c => !(isAdvance c))).countP isDraw = 2 ∧
    (loopIterationYuv locsFound 800 480).countP isAdvance = 1 ∧
    (loopIterationYuv locsFound 800 480).getLast? = some Call.swapBuffers := by
  decide

/-- Claim C3, amended: each iteration of the synthetic variant issues the
offscreen pass with texture-mix forced to 0, unbinds the offscreen target
and restores the window viewport, issues the onscreen pass with
texture-mix 1, then advances the three animation angles, and finally
presents via swap-buffers — the angle update comes after the two passes,
not first. -/
theorem claim3_theorem (L : ShaderLocs) (w h : ℤ) (hm : L.iLocTextureMix ≠ -1) :
    loopIterationYuv L w h =
      [Call.useProgram,
       Call.enableVertexAttribArray L.iLocPosition, Call.vertexAttribPointer L.iLocPosition 3,
       Call.enableVertexAttribArray L.iLocFillColor, Call.vertexAttribPointer L.iLocFillColor 4,
       Call.enableVertexAttribArray L.iLocTexCoord, Call.vertexAttribPointer L.iLocTexCoord 2,
       Call.bindFramebufferTarget, Call.viewport 256 256,
       Call.clearColor (1/2) (1/2) (1/2) 1, Call.clear,
       Call.uniformMatrix4fv L.iLocModelview, Call.uniformMatrix4fv L.iLocProjection,
       Call.uniform1f L.iLocTextureMix 0, Call.drawElements 34,
       Call.bindFramebufferDefault, Call.viewport w h,
       Call.clearColor 0 0 1 1, Call.clear,
       Call.uniformMatrix4fv L.iLocModelview, Call.uniformMatrix4fv L.iLocProjection,
       Call.uniform1f L.iLocTextureMix 1,
       Call.activeTextureZero, Call.bindTexture2D, Call.drawElements 34,
       Call.advanceAngles, Call.swapBuffers] := by
  unfold loopIterationYuv renderFrameCalls
  rw [if_pos hm, if_pos hm]
  rfl

/-- Claim C3, witness: the amended iteration trace at a concrete location
assignment and window size. -/
theorem claim3_witness :
    loopIterationYuv locsFound 800 480 =
      [Call.useProgram,
       Call.enableVertexAttribArray 0, Call.vertexAttribPointer 0 3,
       Call.enableVertexAttribArray 3, Call.vertexAttribPointer 3 4,
       Call.enableVertexAttribArray 4, Call.vertexAttribPointer 4 2,
       Call.bindFramebufferTarget, Call.viewport 256 256,
       Call.clearColor (1/2) (1/2) (1/2) 1, Call.clear,
       Call.uniformMatrix4fv 6, Call.uniformMatrix4fv 5,
       Call.uniform1f 1 0, Call.drawElements 34,
       Call.bindFramebufferDefault, Call.viewport 800 480,
       Call.clearColor 0 0 1 1, Call.clear,
       Call.uniformMatrix4fv 6, Call.uniformMatrix4fv 5,
       Call.uniform1f 1 1,
       Call.activeTextureZero, Call.bindTexture2D, Call.drawElements 34,
       Call.advanceAngles, Call.swapBuffers] :=
  claim3_theorem locsFound 800 480 (by decide)

/-- Claim C4, counterexample: in the synthetic variant a lock failure
during setup makes setupYuvTexSurface return false, and main then returns
1 — the failure does terminate the process, contradicting the claim that
such failures never cause the process to terminate. -/
theorem claim4_counterexample :
    (setupYuvTexSurfaceRun ⟨-22, 0, true⟩).2 = false ∧
    mainYuvExit envYuvLockFail = some 1 := by
  decide

/-- Claim C4, amended: a lock, unlock or image-creation failure is logged
and the affected function returns early with no retry (a single lock
attempt), leaving any pre-existing texture state (no texture import call
in the trace); in the live-capture variant this never terminates the
process because setupFbTexSurface reports success unconditionally, but in
the synthetic variant the setup failure propagates and main exits with
status 1. -/
theorem claim4_theorem (e : BufEnv) (g : FbGeom) (ioctlOk flag : Bool)
    (hfail : e.lockErr ≠ 0 ∨ e.unlockErr ≠ 0 ∨ e.imageOk = false) :
    (setupYuvTexSurfaceRun e).2 = false ∧
    Call.logError ∈ (setupYuvTexSurfaceRun e).1 ∧
    (setupYuvTexSurfaceRun e).1.countP isLock = 1 ∧
    Call.eglImageTarget ∉ (setupYuvTexSurfaceRun e).1 ∧
    (fillFbTextureRun e g ioctlOk flag).countP isLock = 1 ∧
    Call.eglImageTarget ∉ fillFbTextureRun e g ioctlOk flag ∧
    (setupFbTexSurfaceRun e g ioctlOk).2 = true := by
  refine ⟨?_, ?_, setupYuv_lock_count e, ?_, fillFb_lock_count e g ioctlOk flag, ?_, rfl⟩
  · unfold setupYuvTexSurfaceRun
    rcases hfail with h | h | h
    · rw [if_pos h]
    · by_cases h1 : e.lockErr ≠ 0
      · rw [if_pos h1]
      · rw [if_neg h1, if_pos h]
    · by_cases h1 : e.lockErr ≠ 0
      · rw [if_pos h1]
      · by_cases h2 : e.unlockErr ≠ 0
        · rw [if_neg h1, if_pos h2]
        · rw [if_neg h1, if_neg h2, if_pos h]
  · unfold setupYuvTexSurfaceRun
    rcases hfail with h | h | h
    · rw [if_pos h]; simp
    · by_cases h1 : e.lockErr ≠ 0
      · rw [if_pos h1]; simp
      · rw [if_neg h1, if_pos h]; simp
    · by_cases h1 : e.lockErr ≠ 0
      · rw [if_pos h1]; simp
      · by_cases h2 : e.unlockErr ≠ 0
        · rw [if_neg h1, if_pos h2]; simp
        · rw [if_neg h1, if_neg h2, if_pos h]; simp
  · unfold setupYuvTexSurfaceRun
    rcases hfail with h | h | h
    · rw [if_pos h]; simp
    · by_cases h1 : e.lockErr ≠ 0
      · rw [if_pos h1]; simp
      · rw [if_neg h1, if_pos h]; simp
    · by_cases h1 : e.lockErr ≠ 0
      · rw [if_pos h1]; simp
      · by_cases h2 : e.unlockErr ≠ 0
        · rw [if_neg h1, if_pos h2]; simp
        · rw [if_neg h1, if_neg h2, if_pos h]; simp
  · unfold fillFbTextureRun
    rcases hfail with h | h | h
    · rw [if_pos h]; simp
    · by_cases h1 : e.lockErr ≠ 0
      · rw [if_pos h1]; simp
      · rw [if_neg h1]
        cases ioctlOk <;> simp [h]
    · by_cases h1 : e.lockErr ≠ 0
      · rw [if_pos h1]; simp
      · rw [if_neg h1]
        by_cases h2 : e.unlockErr ≠ 0 <;>
          cases ioctlOk <;> cases flag <;> simp [h, h2]

/-- Claim C4, witness: the amended statement evaluated at a lock failure
with status -22. -/
theorem claim4_witness :
    (setupYuvTexSurfaceRun ⟨-22, 0, true⟩).2 = false ∧
    Call.logError ∈ (setupYuvTexSurfaceRun ⟨-22, 0, true⟩).1 ∧
    (setupYuvTexSurfaceRun ⟨-22, 0, true⟩).1.countP isLock = 1 ∧
    Call.eglImageTarget ∉ (setupYuvTexSurfaceRun ⟨-22, 0, true⟩).1 ∧
    (fillFbTextureRun ⟨-22, 0, true⟩ ⟨640, 240, 16⟩ true false).countP isLock = 1 ∧
    Call.eglImageTarget ∉ fillFbTextureRun ⟨-22, 0, true⟩ ⟨640, 240, 16⟩ true false ∧
    (setupFbTexSurfaceRun ⟨-22, 0, true⟩ ⟨640, 240, 16⟩ true).2 = true :=
  claim4_theorem ⟨-22, 0, true⟩ ⟨640, 240, 16⟩ true false (Or.inl (by decide))

/-- Claim C5, counterexample: in gl2_cube.cpp a shader-link failure with
everything else succeeding is a later setup failure, yet main does not
return 1: the link result is never checked, setupGraphics reports
success, and the frame loop is entered (exit value none). -/
theorem claim5_counterexample :
    mainCubeExit envLinkFail = none ∧
    envLinkFail.gfx.linkOk = false ∧
    envLinkFail.displayOk = true ∧ envLinkFail.initOk = true ∧
    envLinkFail.configOk = true ∧ envLinkFail.surfaceOk = true ∧
    envLinkFail.contextOk = true ∧ envLinkFail.makeCurrentOk = true := by
  decide

/-- Claim C5, amended: in every variant main returns 0 exactly when
display acquisition fails, enters the endless frame loop exactly when
every setup stage succeeds, and returns 1 exactly when display
acquisition succeeds but a later stage fails — except that in gl2_cube a
link failure alone is not a detected stage: it is fatal in the offscreen
variants only because the required position attribute then resolves to
-1, while gl2_cube checks nothing after the shader compiles and enters
the loop. -/
theorem claim5_theorem (env : MainEnv) :
    (mainYuvExit env = some 0 ↔ (env.displayOk && env.initOk) = false) ∧
    (mainFbExit env = some 0 ↔ (env.displayOk && env.initOk) = false) ∧
    (mainCubeExit env = some 0 ↔ (env.displayOk && env.initOk) = false) ∧
    (mainYuvExit env = some 1 ↔ (env.displayOk && env.initOk) = true ∧
      (env.configOk && env.surfaceOk && env.contextOk && env.makeCurrentOk &&
        (setupYuvTexSurfaceRun env.buf).2 && setupGraphicsFboOk env.gfx) = false) ∧
    (mainFbExit env = some 1 ↔ (env.displayOk && env.initOk) = true ∧
      (env.configOk && env.surfaceOk && env.contextOk && env.makeCurrentOk &&
        (setupFbTexSurfaceRun env.buf env.geom env.ioctlOk).2 &&
        setupGraphicsFboOk env.gfx) = false) ∧
    (mainCubeExit env = some 1 ↔ (env.displayOk && env.initOk) = true ∧
      (env.configOk && env.surfaceOk && env.contextOk && env.makeCurrentOk &&
        setupGraphicsCubeOk env.gfx) = false) ∧
    (mainYuvExit env = none ↔ (env.displayOk && env.initOk && env.configOk &&
      env.surfaceOk && env.contextOk && env.makeCurrentOk &&
      (setupYuvTexSurfaceRun env.buf).2 && setupGraphicsFboOk env.gfx) = true) ∧
    (mainFbExit env = none ↔ (env.displayOk && env.initOk && env.configOk &&
      env.surfaceOk && env.contextOk && env.makeCurrentOk &&
      (setupFbTexSurfaceRun env.buf env.geom env.ioctlOk).2 &&
      setupGraphicsFboOk env.gfx) = true) ∧
    (mainCubeExit env = none ↔ (env.displayOk && env.initOk && env.configOk &&
      env.surfaceOk && env.contextOk && env.makeCurrentOk &&
      setupGraphicsCubeOk env.gfx) = true) ∧
    (env.gfx.linkOk = false → setupGraphicsFboOk env.gfx = false) ∧
    (env.gfx.linkOk = false → env.gfx.createProgramOk = true →
      env.gfx.vertexShaderOk = true → env.gfx.fragmentShaderOk = true →
      setupGraphicsCubeOk env.gfx = true) := by
  have hY := exitChainTex_spec env.displayOk env.initOk env.configOk env.surfaceOk
    env.contextOk env.makeCurrentOk (setupYuvTexSurfaceRun env.buf).2
    (setupGraphicsFboOk env.gfx)
  have hF := exitChainTex_spec env.displayOk env.initOk env.configOk env.surfaceOk
    env.contextOk env.makeCurrentOk
    (setupFbTexSurfaceRun env.buf env.geom env.ioctlOk).2 (setupGraphicsFboOk env.gfx)
  have hC := exitChainNoTex_spec env.displayOk env.initOk env.configOk env.surfaceOk
    env.contextOk env.makeCurrentOk (setupGraphicsCubeOk env.gfx)
  refine ⟨hY.1, hF.1, hC.1, ?_, ?_, ?_, ?_, ?_, ?_, ?_, ?_⟩
  · simpa [Bool.and_assoc] using hY.2.1
  · simpa [Bool.and_assoc] using hF.2.1
  · simpa [Bool.and_assoc] using hC.2.1
  · simpa [Bool.and_assoc] using hY.2.2
  · simpa [Bool.and_assoc] using hF.2.2
  · simpa [Bool.and_assoc] using hC.2.2
  · intro hl
    simp [setupGraphicsFboOk, hl]
  · intro hl hc hv hfr
    simp [setupGraphicsCubeOk, hc, hv, hfr]

/-- Claim C5, witness: the link-failure behavior of the amended statement
evaluated at the concrete environment where only linking fails. -/
theorem claim5_witness :
    setupGraphicsFboOk envLinkFail.gfx = false ∧
    setupGraphicsCubeOk envLinkFail.gfx = true := by
  have h := claim5_theorem envLinkFail
  exact ⟨h.2.2.2.2.2.2.2.2.2.1 rfl, h.2.2.2.2.2.2.2.2.2.2 rfl rfl rfl rfl⟩

/-- Claim C6 (confirmed): every rotation angle stays in [0, 360) after
every per-frame increment-and-wrap update, starting from 0, for the
fixed increments of each variant (0.15/0.1/0.05 in the live-capture
variant, 3/2/1 in the synthetic variant and in gl2_cube with its extra
negative guard); and the per-frame trace mutates the angles exactly once
(a single advanceAngles call per frame). -/
theorem claim6_theorem : ∀ n : ℕ,
    (0 ≤ (stepAngle (3/20))^[n] 0 ∧ (stepAngle (3/20))^[n] 0 < 360) ∧
    (0 ≤ (stepAngle (1/10))^[n] 0 ∧ (stepAngle (1/10))^[n] 0 < 360) ∧
    (0 ≤ (stepAngle (1/20))^[n] 0 ∧ (stepAngle (1/20))^[n] 0 < 360) ∧
    (0 ≤ (stepAngle 3)^[n] 0 ∧ (stepAngle 3)^[n] 0 < 360) ∧
    (0 ≤ (stepAngle 2)^[n] 0 ∧ (stepAngle 2)^[n] 0 < 360) ∧
    (0 ≤ (stepAngle 1)^[n] 0 ∧ (stepAngle 1)^[n] 0 < 360) ∧
    (0 ≤ (stepAngleSigned 3)^[n] 0 ∧ (stepAngleSigned 3)^[n] 0 < 360) ∧
    (0 ≤ (stepAngleSigned 2)^[n] 0 ∧ (stepAngleSigned 2)^[n] 0 < 360) ∧
    (0 ≤ (stepAngleSigned 1)^[n] 0 ∧ (stepAngleSigned 1)^[n] 0 < 360) ∧
    (∀ (L : ShaderLocs) (w h : ℤ), (renderFrameCalls L w h).countP isAdvance = 1) :=
  fun n =>
    ⟨stepAngle_iterate_bounds _ (by norm_num) (by norm_num) n,
     stepAngle_iterate_bounds _ (by norm_num) (by norm_num) n,
     stepAngle_iterate_bounds _ (by norm_num) (by norm_num) n,
     stepAngle_iterate_bounds _ (by norm_num) (by norm_num) n,
     stepAngle_iterate_bounds _ (by norm_num) (by norm_num) n,
     stepAngle_iterate_bounds _ (by norm_num) (by norm_num) n,
     stepAngleSigned_iterate_bounds _ (by norm_num) (by norm_num) n,
     stepAngleSigned_iterate_bounds _ (by norm_num) (by norm_num) n,
     stepAngleSigned_iterate_bounds _ (by norm_num) (by norm_num) n,
     fun L w h => renderFrameCalls_advance_count L w h⟩

/-- Claim C7 (confirmed): after the fill loops of setupYuvTexSurface, the
luma byte of pixel (x, y) equals 191 when the block parities of x and y
agree (XOR zero) and 63 otherwise, with the block size degrading to one
pixel for dimensions not above 16; width and height are arbitrary and
need not be 16-aligned (the luma stride sY only has to accommodate the
width, as the platform guarantees). -/
theorem claim7_theorem (w h sY x y : ℕ) (hws : w ≤ sY) (hx : x < w) (hy : y < h) :
    lumaSample w h sY x y =
      some (if ((x / blockWidth w) &&& 1) ^^^ ((y / blockHeight h) &&& 1) = 0
            then 191 else 63) := by
  have hmain : lumaSample w h sY x y = some (checkerIntensity w h x y) :=
    lastWrite_eq _ _ _ ⟨_, yuvFillWrites_mem w h sY x y hx hy, rfl⟩
      (yuvFillWrites_luma_value w h sY x y hws hx hy)
  rw [hmain]
  rfl

/-- Claim C7, witness: the checkerboard value at pixel (3, 2) of a 4x3
buffer with luma stride 5 (degenerate one-pixel blocks, odd-even parity,
XOR one, so 63). -/
theorem claim7_witness : lumaSample 4 3 5 3 2 = some 63 := by
  have h := claim7_theorem 4 3 5 3 2 (by norm_num) (by norm_num) (by norm_num)
  rw [h]
  decide

/-- Claim C8 (confirmed): the triangle-strip index list of Cube.h
references exactly the 24 declared cube vertices (all of 0..23, nothing
outside), consists of six four-index quads joined by repeats of the last
index of one quad and the first of the next, and its nondegenerate
triangles under strip decoding are exactly the two triangles of each of
the six quads. -/
theorem claim8_theorem :
    (∀ i ∈ cubeIndices, i < cubeVertices.length) ∧
    (∀ i < cubeVertices.length, i ∈ cubeIndices) ∧
    cubeVertices.length = 24 ∧
    (stripTriangles cubeIndices).filter (fun tr => !(isDegenerate tr)) =
      [(0,1,2), (1,2,3), (4,5,6), (5,6,7), (8,9,10), (9,10,11),
       (12,13,14), (13,14,15), (16,17,18), (17,18,19), (20,21,22), (21,22,23)] ∧
    cubeIndices = (List.range 6).flatMap
      (fun f => [4*f, 4*f+1, 4*f+2, 4*f+3] ++ (if f < 5 then [4*f+3, 4*f+4] else [])) := by
  decide

/-- Claim C9, counterexample: xioctl re-invokes ioctl after a failure:
when the first invocation returns -1 with errno EINTR, a second
invocation is made (two invocations in total), so the program does retry
a failed system call. -/
theorem claim9_counterexample :
    xioctlRun (-1, eintrCode) [(0, 0)] = (0, 2) := by
  decide

/-- Claim C9, amended: the only retry in the program is xioctl's EINTR
loop: any ioctl result other than failure-with-EINTR is returned after a
single invocation, and the buffer lock calls of the external-image paths
are made exactly once per call with no retry. -/
theorem claim9_theorem (f : ℤ × ℤ) (rest : List (ℤ × ℤ))
    (hok : ¬(f.1 = -1 ∧ f.2 = eintrCode)) :
    xioctlRun f rest = (f.1, 1) ∧
    (∀ (e : BufEnv) (g : FbGeom) (io fl : Bool),
      (fillFbTextureRun e g io fl).countP isLock = 1 ∧
      (setupYuvTexSurfaceRun e).1.countP isLock = 1) := by
  constructor
  · obtain ⟨r, er⟩ := f
    unfold xioctlRun
    rw [if_neg hok]
  · exact fun e g io fl => ⟨fillFb_lock_count e g io fl, setupYuv_lock_count e⟩

/-- Claim C9, witness: a successful first ioctl invocation is returned
immediately with exactly one invocation made. -/
theorem claim9_witness : xioctlRun (0, 0) [] = ((0 : ℤ), 1) :=
  (claim9_theorem (0, 0) [] (by decide)).1

/-- Claim C10 (confirmed): each frame of the live-capture variant copies
exactly xres * yres * bits_per_pixel / 8 bytes, a count computed solely
from the device geometry (the memcpy of that size is in the trace
whenever the lock succeeds) and never clamped to the 640 x 240 RGB565
destination capacity of 307200 bytes: all copied bytes stay within the
destination precisely when the count is at most the capacity, and
geometries exceeding it exist (for example 1024 x 600 at 16 bpp). -/
theorem claim10_theorem (g : FbGeom) (e : BufEnv) (ioctlOk flag : Bool)
    (hl : e.lockErr = 0) :
    Call.memcpyCopy (copyByteCount g) ∈ fillFbTextureRun e g ioctlOk flag ∧
    ((∀ i, i < copyByteCount g → i < fbTexCapacity) ↔ copyByteCount g ≤ fbTexCapacity) ∧
    fbTexCapacity = 307200 ∧
    fbTexCapacity < copyByteCount ⟨1024, 600, 16⟩ := by
  refine ⟨?_, ⟨?_, fun hle i hi => lt_of_lt_of_le hi hle⟩, by norm_num [fbTexCapacity],
    by norm_num [copyByteCount, fbTexCapacity]⟩
  · unfold fillFbTextureRun
    rw [if_neg (not_not_intro hl)]
    cases ioctlOk <;> simp
  · intro hall
    by_cases h0 : copyByteCount g = 0
    · rw [h0]
      exact Nat.zero_le _
    · have := hall (copyByteCount g - 1) (by omega)
      omega

/-- Claim C10, witness: the memcpy of the geometry-derived byte count is
present in the per-frame trace for a successful lock at the 640 x 240
16-bpp geometry. -/
theorem claim10_witness :
    Call.memcpyCopy (copyByteCount ⟨640, 240, 16⟩) ∈
      fillFbTextureRun ⟨0, 0, true⟩ ⟨640, 240, 16⟩ true false :=
  (claim10_theorem ⟨640, 240, 16⟩ ⟨0, 0, true⟩ true false rfl).1

end GlCube
